import Mathlib

/-!
# SlackMusterBot: shallow embedding and verification

A shallow embedding of `musterbot.py` (a Slack attendance/check-in bot).
The SQLite tables become explicit list-of-row parameters, the Slack platform
calls become explicit inputs (for inbound data) and returned values (for
outbound effects), and `datetime.date` becomes a day counter with a canonical
string rendering.  Each handler / workflow function from the source is
translated as a pure function from the tables and inputs it reads to the
tables it writes and the messages it sends.
-/

namespace MusterBot

/-- Model of Python `datetime.date`: a count of days from an epoch that falls
on a Monday, so that `weekday` agrees with Python (`Monday = 0 .. Sunday = 6`). -/
structure Date where
  days : Nat
deriving DecidableEq, Repr

/-- Model of Python `date.weekday()`: Monday is 0, Sunday is 6. -/
def Date.weekday (d : Date) : Nat := d.days % 7

/-- Model of `strftime("%Y-%m-%d")`: the canonical string rendering of a date.
One fixed injective rendering per date (we render the epoch day count in
decimal, standing in for the `YYYY-MM-DD` digits). -/
def Date.iso (d : Date) : String := Nat.repr d.days

/-- A row of the `responses` table:
`id INTEGER PRIMARY KEY, user_id TEXT NOT NULL, user_name TEXT NOT NULL,
response_date TEXT NOT NULL, response_text TEXT NOT NULL, details TEXT`.
`id` is a rowid alias; `details` is nullable. -/
structure ResponseRow where
  id : Nat
  user_id : String
  user_name : String
  response_date : String
  response_text : String
  details : Option String
deriving DecidableEq, Repr

/-- A row of the `leave` table.  The `start_date`/`end_date` TEXT columns only
ever hold ISO renderings written from the date-picker, and
`date.fromisoformat` in `is_user_on_leave` recovers exactly the rendered date,
so the model stores the `Date` value itself. -/
structure LeaveRow where
  user_id : String
  user_name : String
  start_date : Date
  end_date : Date
deriving DecidableEq, Repr

/-- The `holidays` table: `holiday_date TEXT PRIMARY KEY, description TEXT`.
Kept as raw strings because the normalization of the stored key is itself
under scrutiny. -/
abbrev HolidayTable := List (String × String)

/-- `is_admin(user_id)`: `SELECT 1 FROM admins WHERE user_id = ?` is not-none.
The `admins` table (single `user_id TEXT PRIMARY KEY` column) is a list of ids. -/
def is_admin (admins : List String) (user_id : String) : Bool :=
  admins.any (fun a => a == user_id)

/-- `is_workday(check_date)`: false when `check_date.weekday() >= 5`
(Saturday/Sunday); otherwise false exactly when
`SELECT 1 FROM holidays WHERE holiday_date = ?` matches the
`strftime("%Y-%m-%d")` rendering of the date; else true. -/
def is_workday (holidays : HolidayTable) (check_date : Date) : Bool :=
  if check_date.weekday ≥ 5 then
    false
  else
    !(holidays.any (fun p => p.1 == check_date.iso))

/-- `is_user_on_leave(user_id, check_date)`:
`SELECT start_date, end_date FROM leave WHERE user_id = ?`, then true iff some
fetched period has `start_date <= check_date <= end_date`. -/
def is_user_on_leave (leave : List LeaveRow) (user_id : String) (check_date : Date) : Bool :=
  ((leave.filter (fun r => r.user_id == user_id)).any
    (fun r => r.start_date.days ≤ check_date.days && check_date.days ≤ r.end_date.days))

/-- The rowid SQLite assigns when `id` is omitted from an insert into
`responses`: one larger than the current largest rowid (1 on an empty table). -/
def freshId (tbl : List ResponseRow) : Nat :=
  (tbl.map (fun r => r.id)).foldr max 0 + 1

/-- Model of
`INSERT OR REPLACE INTO responses (user_id, user_name, response_date, response_text, details) VALUES (?, ?, ?, ?, ?)`
from `handle_response`.  The column list omits `id`, so SQLite assigns a fresh
rowid; the table declares no uniqueness constraint other than the
`id INTEGER PRIMARY KEY` rowid alias, so OR REPLACE deletes exactly the rows
that collide on `id` (none, since the rowid is fresh) and appends the new row. -/
def insert_or_replace_response (tbl : List ResponseRow)
    (user_id user_name response_date response_text : String)
    (details : Option String) : List ResponseRow :=
  let newId := freshId tbl
  (tbl.filter (fun r => r.id ≠ newId)) ++
    [{ id := newId, user_id := user_id, user_name := user_name,
       response_date := response_date, response_text := response_text,
       details := details }]

/-- `handle_response(body, response_text, details)`: records a check-in for
(user, today) via `insert_or_replace_response` with
`response_date = today.strftime("%Y-%m-%d")`.  (The confirmation post into the
thread is an outbound platform effect and does not touch the table.) -/
def handle_response (tbl : List ResponseRow) (user_id user_name : String)
    (today : Date) (response_text : String) (details : Option String) :
    List ResponseRow :=
  insert_or_replace_response tbl user_id user_name today.iso response_text details

/-- A point lookup on the responses store for one (user, date) pair, i.e.
`SELECT * FROM responses WHERE user_id = ? AND response_date = ?`. -/
def selectResponses (tbl : List ResponseRow) (user_id : String) (d : Date) :
    List ResponseRow :=
  tbl.filter (fun r => r.user_id == user_id && r.response_date == d.iso)

/-- `SELECT ... FROM responses WHERE response_date = ?`: the rows for one day,
as used by `post_daily_summary` and `post_reminders`. -/
def responsesFor (tbl : List ResponseRow) (today_str : String) : List ResponseRow :=
  tbl.filter (fun r => r.response_date == today_str)

/-- The `is_bot` filtering loop of `get_channel_members`: walks the member ids,
querying `users_info` for each (`isBot` returns `none` when that platform call
raises) and keeping the non-bots.  A raised call aborts the whole loop
(`none`), matching the single try/except around it in the source. -/
def filterHumans (isBot : String → Option Bool) : List String → Option (List String)
  | [] => some []
  | u :: rest =>
    match isBot u with
    | none => none
    | some b => (filterHumans isBot rest).map (fun hs => if b then hs else u :: hs)

/-- `get_channel_members(channel_id)`: fetches the member list
(`membersResult = none` models `conversations_members` raising), filters out
bots, and returns `[]` if any platform call in the try block raised. -/
def get_channel_members (membersResult : Option (List String))
    (isBot : String → Option Bool) : List String :=
  match membersResult with
  | none => []
  | some member_ids => (filterHumans isBot member_ids).getD []

/-- `post_daily_checkin(ignore_off_day)`: returns early (`none`) when
`ignore_off_day` is unset and today is not a workday; otherwise posts the
interactive prompt and records the returned message handle under the key for today
in `daily_thread_ts` (we return the recorded key, `some today.iso`). -/
def post_daily_checkin (holidays : HolidayTable) (today : Date)
    (ignore_off_day : Bool) : Option String :=
  if !ignore_off_day && !(is_workday holidays today) then
    none
  else
    some today.iso

/-- One appended chunk of the summary text, for one response row:
`f"\n• <@{user_id}>: *{response}*{details_text}"` where `details_text` is
`f" ({details})"` when `details` is truthy (non-null and non-empty) and `""`
otherwise. -/
def summary_line (r : ResponseRow) : String :=
  let details_text :=
    match r.details with
    | none => ""
    | some dt => if dt.isEmpty then "" else " (" ++ dt ++ ")"
  "\n• <@" ++ r.user_id ++ ">: *" ++ r.response_text ++ "*" ++ details_text

/-- The header `f"*Daily Status Summary for {today_str}*"` shared by both
branches of `post_daily_summary`. -/
def summary_header (today_str : String) : String :=
  "*Daily Status Summary for " ++ today_str ++ "*"

/-- `post_daily_summary(ignore_off_day)`: returns early (`none`) under the
same off-day rule; otherwise builds the summary text from the response
rows — the fixed "no one has checked in" text when there are none, else the
header followed by one appended chunk per row — and posts it (we return the
text). -/
def post_daily_summary (holidays : HolidayTable) (responses : List ResponseRow)
    (today : Date) (ignore_off_day : Bool) : Option String :=
  if !ignore_off_day && !(is_workday holidays today) then
    none
  else
    let today_str := today.iso
    let rows := responsesFor responses today_str
    if rows.isEmpty then
      some (summary_header today_str ++ "\n\nNo one has checked in yet.")
    else
      some (rows.foldl (fun acc r => acc ++ summary_line r) (summary_header today_str ++ "\n"))

/-- `post_reminders(ignore_off_day)`: returns early (`none`) under the same
off-day rule; otherwise takes the channel members (bots already filtered out),
subtracts the users that already responded today (`set(...) - responded_users`,
modelled by `dedup` plus a filter), and DMs each remaining user that is not on
leave today.  Returns the set of users messaged, as a duplicate-free list. -/
def post_reminders (holidays : HolidayTable) (responses : List ResponseRow)
    (leave : List LeaveRow) (membersResult : Option (List String))
    (isBot : String → Option Bool) (today : Date) (ignore_off_day : Bool) :
    Option (List String) :=
  if !ignore_off_day && !(is_workday holidays today) then
    none
  else
    let today_str := today.iso
    let all_channel_members := get_channel_members membersResult isBot
    let responded_users := (responsesFor responses today_str).map (fun r => r.user_id)
    let missing_users := all_channel_members.dedup.filter
      (fun u => !responded_users.contains u)
    some (missing_users.filter (fun u => !is_user_on_leave leave u today))

/-- The ephemeral confirmation
`f"Got it! Your leave from {start_date} to {end_date} has been recorded."`. -/
def leave_confirmation (start_str end_str : String) : String :=
  "Got it! Your leave from " ++ start_str ++ " to " ++ end_str ++ " has been recorded."

/-- `handle_leave_submission(ack, body, logger)`: reads the two date-picker
values (each `none` when unset), rejects (logs and drops, inserting nothing
and sending nothing) when either is missing or the parsed end date precedes
the parsed start date, and otherwise inserts a `leave` row and sends the
ephemeral confirmation.  Returns the updated table and the message sent. -/
def handle_leave_submission (leave : List LeaveRow) (user_id user_name : String)
    (start_date end_date : Option Date) : List LeaveRow × Option String :=
  match start_date, end_date with
  | some s, some e =>
    if e.days < s.days then
      (leave, none)
    else
      (leave ++ [{ user_id := user_id, user_name := user_name,
                   start_date := s, end_date := e }],
       some (leave_confirmation s.iso e.iso))
  | _, _ => (leave, none)

/-- Python `text.split(" ", 1)`: split at the first space only.  Returns one
element when the text has no space, else the part before the first space and
the untouched remainder. -/
def split_first_aux : List Char → List Char → List String
  | [], acc => [String.mk acc.reverse]
  | c :: rest, acc =>
    if c = ' ' then [String.mk acc.reverse, String.mk rest]
    else split_first_aux rest (c :: acc)

/-- `body["text"].split(" ", 1)`. -/
def split_first (text : String) : List String :=
  split_first_aux text.data []

/-- `INSERT OR REPLACE INTO holidays (holiday_date, description) VALUES (?, ?)`:
`holiday_date` is the primary key, so the row with the same key (if any) is
replaced. -/
def upsert_holiday (holidays : HolidayTable) (k description : String) : HolidayTable :=
  (holidays.filter (fun p => p.1 ≠ k)) ++ [(k, description)]

/-- The fixed refusal sent by the admin-gated commands. -/
def admin_refusal : String := "Sorry, only admins can use this command."

/-- The reply sent from the except branch of `/holiday` when the typed date
does not parse (the source appends the exception text, which we drop). -/
def bad_date_reply : String :=
  "Sorry, I couldn\x27t understand that date. Please use a format like YYYY-MM-DD."

/-- `handle_holiday(ack, body, say)` for `/holiday`: refuses non-admins,
demands `date description` (split at the first space), runs the free-text date
through `dateutil.parser.parse` (modelled by the `parse` argument, `none` when
it raises) and, on success, upserts a holiday row keyed by the
`strftime("%Y-%m-%d")` rendering of the parsed date; an unparsable date falls
to the except branch, writing nothing.  Returns the updated table and the
reply sent. -/
def handle_holiday (parse : String → Option Date) (admins : List String)
    (holidays : HolidayTable) (user_id text : String) : HolidayTable × String :=
  if !(is_admin admins user_id) then
    (holidays, admin_refusal)
  else
    match split_first text with
    | [holiday_date, description] =>
      (match parse holiday_date with
       | some d =>
         let parsed_date := d.iso
         (upsert_holiday holidays parsed_date description,
          ":tada: Holiday \x27" ++ description ++ "\x27 on " ++ parsed_date ++ " has been added.")
       | none => (holidays, bad_date_reply))
    | _ => (holidays, "Usage: `/holiday YYYY-MM-DD Description`")

/-- `/add_admin` stub: acknowledges and replies, touching nothing. -/
def handle_add_admin (admins : List String) (user_id : String) :
    List String × String :=
  (admins, "Add admin feature coming soon!")

/-- `/edit_status` stub: acknowledges and replies, touching nothing. -/
def handle_edit_status (admins : List String) (user_id : String) :
    List String × String :=
  (admins, "Edit status feature coming soon!")

/-- `/report` stub: acknowledges and replies, touching nothing. -/
def handle_report (admins : List String) (user_id : String) :
    List String × String :=
  (admins, "Report feature coming soon!")

/-- `/config` stub: acknowledges and replies, touching nothing. -/
def handle_config (admins : List String) (user_id : String) :
    List String × String :=
  (admins, "Config feature coming soon!")

/-- Concatenation of a list of text chunks, used to describe the summary text
built by the `summary_text +=` loop. -/
def concat_all : List String → String
  | [] => ""
  | s :: rest => s ++ concat_all rest

/-! ## Helper lemmas -/

theorem foldl_append_concat_all {α : Type} (f : α → String) (l : List α) :
    ∀ init : String,
      l.foldl (fun acc r => acc ++ f r) init = init ++ concat_all (l.map f) := by
  induction l with
  | nil => intro init; simp [concat_all]
  | cons a t ih =>
    intro init
    simp only [List.foldl_cons, List.map_cons, concat_all, ih (init ++ f a),
      String.append_assoc]

theorem filterHumans_mem (isBot : String → Option Bool) :
    ∀ (ids l : List String), filterHumans isBot ids = some l →
      ∀ u, u ∈ l ↔ (u ∈ ids ∧ isBot u = some false) := by
  intro ids
  induction ids with
  | nil =>
    intro l h u
    simp only [filterHumans, Option.some.injEq] at h
    subst h
    simp
  | cons a rest ih =>
    intro l h u
    simp only [filterHumans] at h
    cases hb : isBot a with
    | none => rw [hb] at h; exact absurd h (by simp)
    | some b =>
      rw [hb] at h
      cases hrest : filterHumans isBot rest with
      | none => rw [hrest] at h; exact absurd h (by simp)
      | some l2 =>
        rw [hrest] at h
        simp only [Option.map_some', Option.some.injEq] at h
        subst h
        have ihu := ih l2 hrest u
        cases b with
        | false =>
          rw [if_neg (by decide : ¬(false = true)), List.mem_cons, ihu,
            List.mem_cons]
          constructor
          · rintro (h1 | ⟨h2, h3⟩)
            · exact ⟨Or.inl h1, by rw [h1]; exact hb⟩
            · exact ⟨Or.inr h2, h3⟩
          · rintro ⟨h1 | h1, h2⟩
            · exact Or.inl h1
            · exact Or.inr ⟨h1, h2⟩
        | true =>
          rw [show (if (true = true) then l2 else a :: l2) = l2 from if_pos rfl,
            ihu, List.mem_cons]
          constructor
          · rintro ⟨h1, h2⟩; exact ⟨Or.inr h1, h2⟩
          · rintro ⟨h1 | h1, h2⟩
            · rw [h1, hb] at h2
              exact absurd h2 (by decide)
            · exact ⟨h1, h2⟩

theorem filterHumans_total (isBot : String → Option Bool) :
    ∀ ids : List String, (∀ u ∈ ids, isBot u ≠ none) →
      ∃ l, filterHumans isBot ids = some l := by
  intro ids
  induction ids with
  | nil => intro _; exact ⟨[], rfl⟩
  | cons a rest ih =>
    intro h
    cases hb : isBot a with
    | none => exact absurd hb (h a (List.mem_cons_self _ _))
    | some b =>
      rcases ih (fun u hu => h u (List.mem_cons_of_mem _ hu)) with ⟨l, hl⟩
      exact ⟨if b then l else a :: l, by simp [filterHumans, hb, hl]⟩

theorem filterHumans_err (isBot : String → Option Bool) :
    ∀ ids : List String, ∀ u ∈ ids, isBot u = none →
      filterHumans isBot ids = none := by
  intro ids
  induction ids with
  | nil => intro u hu; exact absurd hu (by simp)
  | cons a rest ih =>
    intro u hu herr
    rcases List.mem_cons.mp hu with h1 | h2
    · subst h1; simp [filterHumans, herr]
    · cases hb : isBot a with
      | none => simp [filterHumans, hb]
      | some b => simp [filterHumans, hb, ih u h2 herr]

/-! ## Claims -/

/-- Claim C1.  The spec states that recording a second response for the same
user on the same date overwrites the first, so that querying the responses
store for that (user, date) afterwards returns exactly one row, holding the
second submission.  The code violates this: the `responses` table has no
uniqueness constraint on (user_id, response_date) — its only key is the
`id` rowid alias, which every insert sets fresh — so `INSERT OR REPLACE`
never replaces anything and both rows remain.  Concretely, after user `U1`
checks in twice on day 2, the (user, date) query returns two rows, the first
submission among them. -/
theorem C1_second_response_leaves_two_rows :
    (selectResponses
        (handle_response
          (handle_response [] "U1" "alice" ⟨2⟩ "In at Normal Time" none)
          "U1" "alice" ⟨2⟩ "Out Sick" none)
        "U1" ⟨2⟩).length = 2 ∧
    (selectResponses
        (handle_response
          (handle_response [] "U1" "alice" ⟨2⟩ "In at Normal Time" none)
          "U1" "alice" ⟨2⟩ "Out Sick" none)
        "U1" ⟨2⟩).map (fun r => r.response_text) =
      ["In at Normal Time", "Out Sick"] := by
  decide

/-- Claim C2, counterexample.  The claim states that each of the four stubbed
admin commands checks `IsAdmin` on the caller and refuses a non-admin with the
fixed refusal message.  With an empty `admins` table, caller `U2` is not an
admin, yet every one of the four stubs replies with its own "coming soon" text
and never the refusal: no admin check exists in any of them. -/
theorem C2_counterexample :
    is_admin [] "U2" = false ∧
    (handle_add_admin [] "U2").2 = "Add admin feature coming soon!" ∧
    (handle_add_admin [] "U2").2 ≠ admin_refusal ∧
    (handle_edit_status [] "U2").2 = "Edit status feature coming soon!" ∧
    (handle_edit_status [] "U2").2 ≠ admin_refusal ∧
    (handle_report [] "U2").2 = "Report feature coming soon!" ∧
    (handle_report [] "U2").2 ≠ admin_refusal ∧
    (handle_config [] "U2").2 = "Config feature coming soon!" ∧
    (handle_config [] "U2").2 ≠ admin_refusal := by
  decide

/-- Claim C2, amended.  The four stubbed admin commands perform no admin check
at all: for every state of the admins table and every caller — admin or not —
each replies with its fixed "coming soon" message (never the admin refusal)
and leaves the admins table untouched. -/
theorem C2_stubs_reply_without_admin_check (admins : List String) (u : String) :
    handle_add_admin admins u = (admins, "Add admin feature coming soon!") ∧
    handle_edit_status admins u = (admins, "Edit status feature coming soon!") ∧
    handle_report admins u = (admins, "Report feature coming soon!") ∧
    handle_config admins u = (admins, "Config feature coming soon!") ∧
    (handle_add_admin admins u).2 ≠ admin_refusal ∧
    (handle_edit_status admins u).2 ≠ admin_refusal ∧
    (handle_report admins u).2 ≠ admin_refusal ∧
    (handle_config admins u).2 ≠ admin_refusal :=
  ⟨rfl, rfl, rfl, rfl,
   fun hc => (by decide : ¬("Add admin feature coming soon!" = admin_refusal)) hc,
   fun hc => (by decide : ¬("Edit status feature coming soon!" = admin_refusal)) hc,
   fun hc => (by decide : ¬("Report feature coming soon!" = admin_refusal)) hc,
   fun hc => (by decide : ¬("Config feature coming soon!" = admin_refusal)) hc⟩

/-- Claim C3.  For every date and every contents of the holiday table,
`is_workday` returns false exactly when the weekday is Saturday (5) or
Sunday (6) — regardless of the holiday table — or an exact-match holiday row
exists for the formatted date; it returns true otherwise. -/
theorem C3_is_workday_iff (holidays : HolidayTable) (d : Date) :
    is_workday holidays d = false ↔
      (d.weekday = 5 ∨ d.weekday = 6 ∨ ∃ p ∈ holidays, p.1 = d.iso) := by
  have h7 : d.weekday < 7 := Nat.mod_lt _ (by norm_num)
  unfold is_workday
  by_cases h : d.weekday ≥ 5
  · have h56 : d.weekday = 5 ∨ d.weekday = 6 := by omega
    simp only [if_pos h]
    rcases h56 with h5 | h6
    · simp [h5]
    · simp [h6]
  · simp only [if_neg h, Bool.not_eq_false', List.any_eq_true, beq_iff_eq]
    constructor
    · rintro ⟨p, hp, he⟩
      exact Or.inr (Or.inr ⟨p, hp, he⟩)
    · rintro (h5 | h6 | ⟨p, hp, he⟩)
      · omega
      · omega
      · exact ⟨p, hp, he⟩

/-- Claim C4.  `is_user_on_leave(u, d)` returns true iff some leave row for
`u` satisfies start ≤ d ≤ end; both boundary dates count as on-leave since
the comparisons are inclusive. -/
theorem C4_is_user_on_leave_iff (leave : List LeaveRow) (u : String) (d : Date) :
    is_user_on_leave leave u d = true ↔
      ∃ r ∈ leave, r.user_id = u ∧
        r.start_date.days ≤ d.days ∧ d.days ≤ r.end_date.days := by
  unfold is_user_on_leave
  simp only [List.any_eq_true, List.mem_filter, beq_iff_eq, Bool.and_eq_true,
    decide_eq_true_eq]
  constructor
  · rintro ⟨r, ⟨hr, hu⟩, h1, h2⟩
    exact ⟨r, hr, hu, h1, h2⟩
  · rintro ⟨r, hr, hu, h1, h2⟩
    exact ⟨r, ⟨hr, hu⟩, h1, h2⟩

/-- Claim C5.  A leave submission with a missing start date, a missing end
date, or an end date strictly before the start date is rejected: the leave
table is unchanged and no confirmation is sent.  A valid submission (both
dates present, end ≥ start) appends exactly one leave row and sends the
private confirmation to the submitter. -/
theorem C5_leave_submission (leave : List LeaveRow) (u un : String)
    (sd ed : Option Date) :
    (sd = none → handle_leave_submission leave u un sd ed = (leave, none)) ∧
    (ed = none → handle_leave_submission leave u un sd ed = (leave, none)) ∧
    (∀ s e, sd = some s → ed = some e → e.days < s.days →
      handle_leave_submission leave u un sd ed = (leave, none)) ∧
    (∀ s e, sd = some s → ed = some e → s.days ≤ e.days →
      handle_leave_submission leave u un sd ed =
        (leave ++ [{ user_id := u, user_name := un,
                     start_date := s, end_date := e }],
         some (leave_confirmation s.iso e.iso))) := by
  refine ⟨?_, ?_, ?_, ?_⟩
  · intro h; subst h; cases ed <;> rfl
  · intro h; subst h; cases sd <;> rfl
  · intro s e hs he hlt
    subst hs; subst he
    simp [handle_leave_submission, if_pos hlt]
  · intro s e hs he hle
    subst hs; subst he
    simp [handle_leave_submission, Nat.not_lt.mpr hle]

/-- Witness for C5: a valid submission (start day 3, end day 5) by `U1`
appends the row and returns the confirmation. -/
theorem C5_witness :
    handle_leave_submission [] "U1" "alice" (some ⟨3⟩) (some ⟨5⟩) =
      ([{ user_id := "U1", user_name := "alice",
          start_date := ⟨3⟩, end_date := ⟨5⟩ }],
       some (leave_confirmation (Date.iso ⟨3⟩) (Date.iso ⟨5⟩))) :=
  (C5_leave_submission [] "U1" "alice" (some ⟨3⟩) (some ⟨5⟩)).2.2.2
    ⟨3⟩ ⟨5⟩ rfl rfl (by decide)

/-- Claim C6.  On a workday, with the member lookup and every bot lookup
succeeding (and no delivery failure, which the model does not represent), the
set of users sent a reminder is exactly the human (non-bot) channel members
minus the users with a response row for today minus the users on leave today;
in particular no bot account receives one. -/
theorem C6_reminder_targets (holidays : HolidayTable) (responses : List ResponseRow)
    (leave : List LeaveRow) (ids : List String) (isBot : String → Option Bool)
    (today : Date)
    (hwork : is_workday holidays today = true)
    (hbot : ∀ u ∈ ids, isBot u ≠ none) :
    ∃ sent,
      post_reminders holidays responses leave (some ids) isBot today false =
        some sent ∧
      ∀ u, u ∈ sent ↔
        (u ∈ ids ∧ isBot u = some false ∧
         (∀ r ∈ responses, r.response_date = today.iso → r.user_id ≠ u) ∧
         is_user_on_leave leave u today = false) := by
  rcases filterHumans_total isBot ids hbot with ⟨humans, hh⟩
  have hgcm : get_channel_members (some ids) isBot = humans := by
    simp [get_channel_members, hh]
  have hpost : post_reminders holidays responses leave (some ids) isBot today false =
      some ((humans.dedup.filter
          (fun u => !(((responsesFor responses today.iso).map
            (fun r => r.user_id)).contains u))).filter
        (fun u => !is_user_on_leave leave u today)) := by
    unfold post_reminders
    rw [hwork, hgcm]
    rfl
  refine ⟨_, hpost, fun u => ?_⟩
  constructor
  · intro hu
    obtain ⟨hu1, hleave⟩ := List.mem_filter.mp hu
    obtain ⟨hded, hresp⟩ := List.mem_filter.mp hu1
    obtain ⟨hin, hbot2⟩ :=
      (filterHumans_mem isBot ids humans hh u).mp (List.mem_dedup.mp hded)
    rw [Bool.not_eq_true'] at hresp hleave
    refine ⟨hin, hbot2, ?_, hleave⟩
    intro r hr hrd hru
    have hmem : u ∈ (responsesFor responses today.iso).map (fun r => r.user_id) :=
      List.mem_map.mpr ⟨r, List.mem_filter.mpr ⟨hr, by simp [hrd]⟩, hru⟩
    have hc : ((responsesFor responses today.iso).map
        (fun r => r.user_id)).contains u = true := List.elem_iff.mpr hmem
    rw [hc] at hresp
    exact absurd hresp (by decide)
  · rintro ⟨hin, hbot2, hnor, hnol⟩
    refine List.mem_filter.mpr ⟨List.mem_filter.mpr
      ⟨List.mem_dedup.mpr ((filterHumans_mem isBot ids humans hh u).mpr
        ⟨hin, hbot2⟩), ?_⟩, ?_⟩
    · rw [Bool.not_eq_true']
      by_contra hc
      rw [Bool.not_eq_false] at hc
      obtain ⟨r, hrmem, hru⟩ := List.mem_map.mp (List.elem_iff.mp hc)
      obtain ⟨hr, hrd⟩ := List.mem_filter.mp hrmem
      exact hnor r hr (by simpa using hrd) hru
    · rw [Bool.not_eq_true']
      exact hnol

/-- Witness for C6: channel {A (human), B (bot)} on workday 2 with nobody
responded and nobody on leave. -/
theorem C6_witness :
    ∃ sent,
      post_reminders [] [] [] (some ["A", "B"])
          (fun u => if u = "B" then some true else some false) ⟨2⟩ false =
        some sent ∧
      ∀ u, u ∈ sent ↔
        (u ∈ ["A", "B"] ∧
         (if u = "B" then some true else some false) = some false ∧
         (∀ r ∈ ([] : List ResponseRow),
            r.response_date = Date.iso ⟨2⟩ → r.user_id ≠ u) ∧
         is_user_on_leave [] u ⟨2⟩ = false) :=
  C6_reminder_targets [] [] [] ["A", "B"]
    (fun u => if u = "B" then some true else some false) ⟨2⟩
    (by decide) (by intro u hu; by_cases hB : u = "B" <;> simp [hB])

/-- Claim C7.  Whenever `post_daily_summary` posts (shown here on the forced
path, which always posts), the text is the fixed "no one has checked in"
message when today has no response rows, and otherwise the header followed by
the concatenation of exactly one chunk per response row for today. -/
theorem C7_summary_text (holidays : HolidayTable) (responses : List ResponseRow)
    (today : Date) :
    (responsesFor responses today.iso = [] →
      post_daily_summary holidays responses today true =
        some (summary_header today.iso ++ "\n\nNo one has checked in yet.")) ∧
    (responsesFor responses today.iso ≠ [] →
      post_daily_summary holidays responses today true =
        some (summary_header today.iso ++ "\n" ++
          concat_all ((responsesFor responses today.iso).map summary_line)) ∧
      ((responsesFor responses today.iso).map summary_line).length =
        (responsesFor responses today.iso).length) := by
  have hpost : post_daily_summary holidays responses today true =
      (if (responsesFor responses today.iso).isEmpty then
        some (summary_header today.iso ++ "\n\nNo one has checked in yet.")
      else
        some ((responsesFor responses today.iso).foldl
          (fun acc r => acc ++ summary_line r) (summary_header today.iso ++ "\n"))) :=
    rfl
  constructor
  · intro h
    rw [hpost, h]
    rfl
  · intro h
    cases hr : responsesFor responses today.iso with
    | nil => exact absurd hr h
    | cons a t =>
      rw [hpost, hr]
      refine ⟨?_, by rw [List.length_map]⟩
      show some ((a :: t).foldl (fun acc r => acc ++ summary_line r)
        (summary_header today.iso ++ "\n")) = _
      rw [foldl_append_concat_all summary_line (a :: t) (summary_header today.iso ++ "\n")]

/-- Witness for C7: one response row for day 2 produces the header plus
exactly that row's chunk. -/
theorem C7_witness :
    post_daily_summary []
        [{ id := 1, user_id := "U1", user_name := "alice", response_date := "2",
           response_text := "Out Sick", details := some "flu" }] ⟨2⟩ true =
      some (summary_header (Date.iso ⟨2⟩) ++ "\n" ++
        concat_all ((responsesFor
          [{ id := 1, user_id := "U1", user_name := "alice", response_date := "2",
             response_text := "Out Sick", details := some "flu" }]
          (Date.iso ⟨2⟩)).map summary_line)) ∧
    ((responsesFor
        [{ id := 1, user_id := "U1", user_name := "alice", response_date := "2",
           response_text := "Out Sick", details := some "flu" }]
        (Date.iso ⟨2⟩)).map summary_line).length =
      (responsesFor
        [{ id := 1, user_id := "U1", user_name := "alice", response_date := "2",
           response_text := "Out Sick", details := some "flu" }]
        (Date.iso ⟨2⟩)).length :=
  (C7_summary_text []
    [{ id := 1, user_id := "U1", user_name := "alice", response_date := "2",
       response_text := "Out Sick", details := some "flu" }] ⟨2⟩).2 (by decide)

/-- A Bool-guarded choice between two present options is present. -/
theorem isSome_ite_some {α : Type} (c : Bool) (x y : α) :
    (if c then some x else some y).isSome = true := by
  cases c <;> rfl

/-- Claim C8.  Each of post check-in, post summary and post reminders
performs its effect when `ignoreOffDay` is set, whatever `is_workday` says,
and is a no-op when `ignoreOffDay` is unset and today is not a workday. -/
theorem C8_off_day_gating (holidays : HolidayTable) (responses : List ResponseRow)
    (leave : List LeaveRow) (membersResult : Option (List String))
    (isBot : String → Option Bool) (today : Date) :
    ((post_daily_checkin holidays today true).isSome = true ∧
     (post_daily_summary holidays responses today true).isSome = true ∧
     (post_reminders holidays responses leave membersResult isBot today true).isSome
       = true) ∧
    (is_workday holidays today = false →
      post_daily_checkin holidays today false = none ∧
      post_daily_summary holidays responses today false = none ∧
      post_reminders holidays responses leave membersResult isBot today false
        = none) := by
  constructor
  · exact ⟨rfl, isSome_ite_some _ _ _, rfl⟩
  · intro h
    refine ⟨?_, ?_, ?_⟩
    · unfold post_daily_checkin; rw [h]; rfl
    · unfold post_daily_summary; rw [h]; rfl
    · unfold post_reminders; rw [h]; rfl

/-- Witness for C8: day 5 is a Saturday, so the unforced path of all three
operations is a no-op. -/
theorem C8_witness :
    post_daily_checkin [] ⟨5⟩ false = none ∧
    post_daily_summary [] [] ⟨5⟩ false = none ∧
    post_reminders [] [] [] none (fun _ => none) ⟨5⟩ false = none :=
  (C8_off_day_gating [] [] [] none (fun _ => none) ⟨5⟩).2 (by decide)

/-- Claim C9.  When the member-list platform call raises (`membersResult =
none`), or any per-user info call raises while filtering bots, the lookup
returns the empty set instead of propagating the error. -/
theorem C9_member_lookup_failure (ids : List String)
    (isBot : String → Option Bool) (u : String) :
    (get_channel_members none isBot = []) ∧
    (u ∈ ids → isBot u = none → get_channel_members (some ids) isBot = []) := by
  refine ⟨rfl, fun hu herr => ?_⟩
  simp [get_channel_members, filterHumans_err isBot ids u hu herr]

/-- Witness for C9: a failing per-user info call on the only member yields the
empty member list. -/
theorem C9_witness :
    get_channel_members (some ["A"]) (fun _ => none) = [] :=
  (C9_member_lookup_failure ["A"] (fun _ => none) "A").2 (by decide) rfl

/-- Claim C10.  When an admin runs add-holiday with a date the parser
accepts, the stored row is keyed by the canonical `strftime("%Y-%m-%d")`
rendering of the parsed date — whatever format the admin typed — so the
exact-match lookup of `is_workday`, which formats its query with the same
rendering, finds the stored holiday (shown for a weekday, where the lookup is
not masked by the weekend rule); an unparsable date writes nothing and
replies with the error message. -/
theorem C10_holiday_normalized (parse : String → Option Date)
    (admins : List String) (holidays : HolidayTable)
    (user_id text holiday_date description : String)
    (hadmin : is_admin admins user_id = true)
    (hsplit : split_first text = [holiday_date, description]) :
    (∀ d, parse holiday_date = some d →
      (handle_holiday parse admins holidays user_id text).1 =
        upsert_holiday holidays d.iso description ∧
      (d.iso, description) ∈ (handle_holiday parse admins holidays user_id text).1 ∧
      (d.weekday < 5 →
        is_workday (handle_holiday parse admins holidays user_id text).1 d
          = false)) ∧
    (parse holiday_date = none →
      (handle_holiday parse admins holidays user_id text).1 = holidays ∧
      (handle_holiday parse admins holidays user_id text).2 = bad_date_reply) := by
  have hmain : handle_holiday parse admins holidays user_id text =
      (match parse holiday_date with
       | some d =>
         (upsert_holiday holidays d.iso description,
          ":tada: Holiday \x27" ++ description ++ "\x27 on " ++ d.iso ++
            " has been added.")
       | none => (holidays, bad_date_reply)) := by
    unfold handle_holiday
    rw [hadmin, hsplit]
    rfl
  constructor
  · intro d hd
    rw [hmain, hd]
    refine ⟨rfl, ?_, ?_⟩
    · show (d.iso, description) ∈ upsert_holiday holidays d.iso description
      exact List.mem_append_right _ (List.mem_singleton.mpr rfl)
    · intro hwd
      show is_workday (upsert_holiday holidays d.iso description) d = false
      unfold is_workday
      rw [if_neg (by omega : ¬(d.weekday ≥ 5))]
      simp only [Bool.not_eq_false', List.any_eq_true]
      exact ⟨(d.iso, description),
        List.mem_append_right _ (List.mem_singleton.mpr rfl), by simp⟩
  · intro hd
    rw [hmain, hd]
    exact ⟨rfl, rfl⟩

/-- Witness for C10: admin `A` types the free-text date `Jan1`, the parser
maps it to day 2 (a Wednesday), and the stored holiday makes day 2 a
non-workday. -/
theorem C10_witness :
    is_workday ((handle_holiday
        (fun s => if s = "Jan1" then some (⟨2⟩ : Date) else none)
        ["A"] [] "A" "Jan1 NewYear").1) ⟨2⟩ = false :=
  ((C10_holiday_normalized
      (fun s => if s = "Jan1" then some (⟨2⟩ : Date) else none)
      ["A"] [] "A" "Jan1 NewYear" "Jan1" "NewYear" (by decide) (by decide)).1
    ⟨2⟩ (by decide)).2.2 (by decide)

end MusterBot
